import Mathlib

/-!
Verification of the agent-migrator batch scripts: a shallow embedding of
`migrate_agents.py` and `migrate_threads.py`.

External collaborators (the source Assistants service, the destination
Agents service, the local filesystem and the summarization model) are
modelled as environments supplying the outcomes of the corresponding
calls; each driver function is translated into a pure function that
produces the trace of externally visible operations it performs.
-/

namespace AgentMigrator

/-! ## Retry machinery (`create_agent_with_retries`, migrate_agents.py lines 102-120)

The creation function passed to the retry loop is indexed by the number of
invocations made so far; each invocation either raises (`Except.error`) or
returns a boolean (`Except.ok b`): `create_agent` itself catches every
exception internally and returns `True`/`False`, so in the composed
migrator the outcome is always `Except.ok b`, but the retry loop is
defined for an arbitrary creation function. -/

/-- Externally visible steps of one run of `create_agent_with_retries`. -/
inductive RetryEvent where
  | attemptCall
  | sleepSecs (n : Nat)
deriving DecidableEq, Repr

/-- The loop of `create_agent_with_retries`: the list argument holds the
remaining attempt numbers (Python `range(1, max_retries + 1)`), `inv` is the
number of invocations of the creation function made so far.  An attempt that
returns `True` ends the loop with success; a `False` return falls through to
the next attempt with no sleep; a raised exception sleeps `2 ** attempt`
seconds and retries, unless the budget is exhausted, in which case the loop
returns failure at once. -/
def retryGo (create : Nat → Except Unit Bool) (max_retries : Nat) :
    Nat → List Nat → Bool × List RetryEvent
  | _, [] => (false, [])
  | inv, attempt :: rest =>
    match create inv with
    | Except.ok true => (true, [RetryEvent.attemptCall])
    | Except.ok false =>
      let r := retryGo create max_retries (inv + 1) rest
      (r.1, RetryEvent.attemptCall :: r.2)
    | Except.error _ =>
      if attempt < max_retries then
        let r := retryGo create max_retries (inv + 1) rest
        (r.1, RetryEvent.attemptCall :: RetryEvent.sleepSecs (2 ^ attempt) :: r.2)
      else
        (false, [RetryEvent.attemptCall])

/-- `create_agent_with_retries(client, agent_config, max_retries)`: returns
whether creation succeeded, together with the trace of creation attempts and
sleeps, in order. -/
def create_agent_with_retries (create : Nat → Except Unit Bool) (max_retries : Nat) :
    Bool × List RetryEvent :=
  retryGo create max_retries 0 (List.range' 1 max_retries)

/-- The default value of the `max_retries` parameter of
`create_agent_with_retries`; the assistant migrator calls the function
without overriding it. -/
def default_max_retries : Nat := 5

def isAttempt : RetryEvent → Bool
  | RetryEvent.attemptCall => true
  | RetryEvent.sleepSecs _ => false

/-- Number of invocations of the creation function recorded in a trace. -/
def attemptCount (evs : List RetryEvent) : Nat := (evs.filter isAttempt).length

/-- The sleep durations recorded in a trace, in order. -/
def sleepList : List RetryEvent → List Nat
  | [] => []
  | RetryEvent.attemptCall :: rest => sleepList rest
  | RetryEvent.sleepSecs n :: rest => n :: sleepList rest

/-- The trace of a run whose first `k` attempts raise (the first of them
being attempt number `a`) and whose next attempt returns success: attempts
interleaved with sleeps of `2 ^ attempt` seconds. -/
def failTrace (a : Nat) : Nat → List RetryEvent
  | 0 => [RetryEvent.attemptCall]
  | k + 1 => RetryEvent.attemptCall :: RetryEvent.sleepSecs (2 ^ a) :: failTrace (a + 1) k

/-! ## Assistant data model and transform (migrate_agents.py) -/

/-- A tool declaration carried by a source assistant (the `tool.type`
dispatch in `create_agent`): the known kinds are `function` (carrying its
callable schema) and `code_interpreter`; every other kind is unknown. -/
inductive SourceTool where
  | function (fn : String)
  | code_interpreter
  | other (kind : String)
deriving DecidableEq, Repr

/-- A tool added to the destination `ToolSet` by `create_agent`. -/
inductive AgentTool where
  | functionTool (fn : String)
  | codeInterpreterTool
deriving DecidableEq, Repr

/-- A source assistant as returned by the Assistants service. -/
structure Assistant where
  name : String
  instructions : String
  model : String
  tools : List SourceTool
deriving DecidableEq, Repr

/-- Run configuration read from the process environment
(`os.getenv("MODEL_DEPLOYMENT_NAME")`). -/
structure RunConfig where
  model_deployment_name : String
deriving DecidableEq, Repr

/-- The agent payload built by `transform_assistant_to_agent`: name and
instructions from the source assistant, model from run configuration,
tools copied through unchanged. -/
structure AgentPayload where
  name : String
  instructions : String
  model : String
  tools : List SourceTool
deriving DecidableEq, Repr

def transform_assistant_to_agent (cfg : RunConfig) (assistant : Assistant) : AgentPayload :=
  { name := assistant.name
    instructions := assistant.instructions
    model := cfg.model_deployment_name
    tools := assistant.tools }

/-- The `for tool in agent_config.get("tools", [])` loop of `create_agent`:
`function` and `code_interpreter` tools are added to the toolset, any other
kind is skipped (a warning is printed, nothing fails). -/
def buildToolset : List SourceTool → List AgentTool
  | [] => []
  | SourceTool.function fn :: rest => AgentTool.functionTool fn :: buildToolset rest
  | SourceTool.code_interpreter :: rest => AgentTool.codeInterpreterTool :: buildToolset rest
  | SourceTool.other _ :: rest => buildToolset rest

/-- The `agents.create_agent(...)` call issued by `create_agent`: model
read from configuration again, name and instructions from the payload,
toolset filtered by `buildToolset`. -/
structure CreateAgentCall where
  model : String
  name : String
  instructions : String
  toolset : List AgentTool
deriving DecidableEq, Repr

def agentCreateCall (cfg : RunConfig) (agent_config : AgentPayload) : CreateAgentCall :=
  { model := cfg.model_deployment_name
    name := agent_config.name
    instructions := agent_config.instructions
    toolset := buildToolset agent_config.tools }

/-- `create_agent`: issues the create call and returns `true` when the
destination accepts it; every exception raised by the destination call is
caught and turned into a `false` return, so the function never raises. -/
def create_agent (call : CreateAgentCall) (outcome : Except Unit Unit) : Bool :=
  match call, outcome with
  | _, Except.ok _ => true
  | _, Except.error _ => false

/-- Externally visible operations of `migrate_assistants_to_agents`. -/
inductive AgentEvent where
  | listCall
  | backupBatch (n : Nat)
  | createAttempt (call : CreateAgentCall)
  | sleep (secs : Nat)
  | report (name : String) (success : Bool)
deriving DecidableEq, Repr

def retryEventToAgentEvent (call : CreateAgentCall) : RetryEvent → AgentEvent
  | RetryEvent.attemptCall => AgentEvent.createAttempt call
  | RetryEvent.sleepSecs n => AgentEvent.sleep n

def isCreateAttempt : AgentEvent → Bool
  | AgentEvent.createAttempt _ => true
  | _ => false

/-- Environment of one assistant-migrator run: the configuration, the
outcome of the source list call, and the destination outcome of each
creation attempt (indexed by assistant name and attempt number). -/
structure AgentEnv where
  config : RunConfig
  listResponse : Except Unit (List Assistant)
  destOutcome : String → Nat → Except Unit Unit

/-- `list_all_assistants`: returns the listed data, catching any exception
and returning the empty list instead. -/
def list_all_assistants (response : Except Unit (List Assistant)) : List Assistant :=
  match response with
  | Except.ok data => data
  | Except.error _ => []

/-- The body of the `for assistant in assistants` loop of
`migrate_assistants_to_agents`: transform, create with retries (the
default budget, not overridden by the caller), report the outcome, then a
fixed 1-second pacing sleep. -/
def processAssistant (env : AgentEnv) (assistant : Assistant) : List AgentEvent :=
  let agent_config := transform_assistant_to_agent env.config assistant
  let call := agentCreateCall env.config agent_config
  let r := create_agent_with_retries
    (fun i => Except.ok (create_agent call (env.destOutcome assistant.name i)))
    default_max_retries
  r.2.map (retryEventToAgentEvent call) ++
    [AgentEvent.report agent_config.name r.1, AgentEvent.sleep 1]

/-- `migrate_assistants_to_agents`: list the assistants, exit at once when
there are none, back up the whole batch, then process each assistant in
order. -/
def migrate_assistants_run (env : AgentEnv) : List AgentEvent :=
  let assistants := list_all_assistants env.listResponse
  AgentEvent.listCall ::
    (if assistants.isEmpty then []
     else AgentEvent.backupBatch assistants.length ::
       (assistants.map (processAssistant env)).flatten)

/-! ## Thread data model and migration (migrate_threads.py) -/

/-- One content item of a retrieved thread message (the `content.type`
dispatch in `generate_summary`). -/
inductive MessageContent where
  | text (value : String)
  | image_file (file_id : String)
  | other (ctype : String)
deriving DecidableEq, Repr

/-- A retrieved thread message: the id of the participant that produced it
and its content items. -/
structure ThreadMessage where
  assistant_id : String
  content : List MessageContent
deriving DecidableEq, Repr

/-- A source thread as returned by the thread listing: its id, its
metadata and its tool_resources, both modelled as ordered association
lists with unique keys. -/
structure SourceThread where
  id : String
  metadata : List (String × String)
  tool_resources : List (String × String)
deriving DecidableEq, Repr

/-- Python dict lookup `d[k]` on an association list (`none` models a
raised `KeyError`). -/
def dictGet : List (String × String) → String → Option String
  | [], _ => none
  | (k1, v1) :: rest, k => if k = k1 then some v1 else dictGet rest k

/-- Python dict assignment `d[k] = v`: an existing binding is updated in
place, otherwise the new binding is appended at the end. -/
def dictSet : List (String × String) → String → String → List (String × String)
  | [], k, v => [(k, v)]
  | (k1, v1) :: rest, k, v =>
    if k1 = k then (k, v) :: rest else (k1, v1) :: dictSet rest k v

/-- One step of the inner `for content in msg.content` loop of
`generate_summary`, appending one line to the prompt. -/
def appendContent (acc : String) : MessageContent → String
  | MessageContent.text v => acc ++ "Text:" ++ v ++ "\n"
  | MessageContent.image_file fid => acc ++ "Image File ID: " ++ fid ++ "\n"
  | MessageContent.other t => acc ++ "Unknown content type: " ++ t ++ "\n"

/-- One step of the outer `for msg in reversed(messages)` loop of
`generate_summary`: the participant tag, then the content lines. -/
def appendMessage (acc : String) (m : ThreadMessage) : String :=
  m.content.foldl appendContent (acc ++ "Agent:" ++ m.assistant_id ++ ", ")

/-- The prompt assembled by `generate_summary`: the header, then the
messages in reversed retrieval order. -/
def summaryPrompt (messages : List ThreadMessage) : String :=
  messages.reverse.foldl appendMessage "Summarize the following conversation threads:\n\n"

/-- The chat-completion request issued by `generate_summary`. -/
structure CompletionRequest where
  model : String
  system_message : String
  user_message : String
  max_tokens : Nat
  temperature : Nat
deriving DecidableEq, Repr

def generate_summary_request (messages : List ThreadMessage) : CompletionRequest :=
  { model := "gpt-4o"
    system_message := "You are a helpful assistant that summarizes conversations."
    user_message := summaryPrompt messages
    max_tokens := 1000
    temperature := 0 }

/-- Concatenation of a list of strings, in order. -/
def concatAll : List String → String
  | [] => ""
  | s :: rest => s ++ concatAll rest

/-- Rendering of one content item as a single prompt line: text verbatim,
non-text content as a content-kind marker (for an attached image, its file
id). -/
def renderContent : MessageContent → String
  | MessageContent.text v => "Text:" ++ v ++ "\n"
  | MessageContent.image_file fid => "Image File ID: " ++ fid ++ "\n"
  | MessageContent.other t => "Unknown content type: " ++ t ++ "\n"

/-- Rendering of one message entry of the prompt: the tag naming the
originating participant id, followed by its content lines. -/
def renderMessage (m : ThreadMessage) : String :=
  "Agent:" ++ m.assistant_id ++ ", " ++ concatAll (m.content.map renderContent)

/-- A call issued to the destination Agents service by `create_thread`. -/
inductive DestCall where
  | createThread
  | updateThread (thread_id : String) (metadata : List (String × String))
  | createMessage (thread_id : String) (role : String) (content : String)
deriving DecidableEq, Repr

/-- `create_thread(proj_client, messages, metadata, tool_resources,
thread_agent_id)`: builds a local payload dict from `messages`, `metadata`
and `tool_resources` that is never transmitted, then creates an empty
destination thread, attaches the one-entry dict binding `orig_thread_id`
to `metadata["orig_thread_id"]` as the new thread metadata, and posts
`metadata["summary"]` as the content of one user message.  `new_id` is the
id the destination assigns to the created thread.  Returns the destination
calls issued in order, and the created thread object id when the function
returns normally (a missing metadata key raises a `KeyError`, cutting the
call sequence at the point where the key is read). -/
def create_thread (new_id : String) (messages : List ThreadMessage)
    (metadata : List (String × String)) (tool_resources : List (String × String))
    (thread_agent_id : String) : List DestCall × Option String :=
  let _payload := (messages, metadata,
    if tool_resources.isEmpty then none else some tool_resources)
  let _agent_id := thread_agent_id
  match dictGet metadata "orig_thread_id" with
  | none => ([], none)
  | some orig =>
    match dictGet metadata "summary" with
    | none =>
      ([DestCall.createThread, DestCall.updateThread new_id [("orig_thread_id", orig)]], none)
    | some s =>
      ([DestCall.createThread,
        DestCall.updateThread new_id [("orig_thread_id", orig)],
        DestCall.createMessage new_id "user" s], some new_id)

/-- Externally visible operations of `migrate_threads`. -/
inductive ThreadEvent where
  | listThreadsCall
  | listAgentsCall
  | retrieveMsgs (tid : String)
  | backupFile (tid : String)
  | summarizeCall (tid : String)
  | dest (c : DestCall)
deriving DecidableEq, Repr

/-- Environment of one thread-migrator run: the outcome of the thread
listing, the retrieved message history of each source thread, the summary
text the completion call returns for each source thread, the destination
agent list, and the id the destination assigns to the thread created for
each source thread. -/
structure ThreadEnv where
  listResponse : Except Unit (List SourceThread)
  messages : String → List ThreadMessage
  summary : String → String
  agents : List String
  newThreadId : String → String

/-- `list_threads`: a transport or service error raises
(`raise_for_status`) and the function installs no handler, so the error
propagates to the caller; otherwise the response data is returned. -/
def list_threads (response : Except Unit (List SourceThread)) :
    Except Unit (List SourceThread) :=
  match response with
  | Except.ok data => Except.ok data
  | Except.error e => Except.error e

/-- The body of the `for thread in threads` loop of `migrate_threads`:
retrieve the messages, skip the thread when there are none, otherwise back
the messages up, generate a summary, extend the source metadata with
`orig_thread_id` and `summary`, and create the destination thread. -/
def processThread (env : ThreadEnv) (agent_id : String) (t : SourceThread) :
    List ThreadEvent :=
  let msgs := env.messages t.id
  ThreadEvent.retrieveMsgs t.id ::
    (if msgs.isEmpty then []
     else
       let s := env.summary t.id
       let md := dictSet (dictSet t.metadata "orig_thread_id" t.id) "summary" s
       ThreadEvent.backupFile t.id :: ThreadEvent.summarizeCall t.id ::
         ((create_thread (env.newThreadId t.id) msgs md t.tool_resources agent_id).1.map
           ThreadEvent.dest))

def threadsLoop (env : ThreadEnv) (agent_id : String) : List SourceThread → List ThreadEvent
  | [] => []
  | t :: rest => processThread env agent_id t ++ threadsLoop env agent_id rest

/-- `migrate_threads`: list the source threads (an enumeration error
propagates and ends the run at once: second component `false`), pick the
first destination agent (`list_agents().data[0]`, raising when there is
none), then process each thread in order. -/
def migrate_threads_run (env : ThreadEnv) : List ThreadEvent × Bool :=
  match list_threads env.listResponse with
  | Except.error _ => ([ThreadEvent.listThreadsCall], false)
  | Except.ok threads =>
    match env.agents with
    | [] => ([ThreadEvent.listThreadsCall, ThreadEvent.listAgentsCall], false)
    | agent_id :: _ =>
      (ThreadEvent.listThreadsCall :: ThreadEvent.listAgentsCall ::
        threadsLoop env agent_id threads, true)

/-- The metadata maps attached to destination threads in a trace (the
payloads of the update calls). -/
def attachedMetadata : List ThreadEvent → List (List (String × String))
  | [] => []
  | ThreadEvent.dest (DestCall.updateThread _ md) :: rest => md :: attachedMetadata rest
  | _ :: rest => attachedMetadata rest

/-! ## Concrete fixtures used by the closed instances -/

def sampleAssistant : Assistant :=
  { name := "a1", instructions := "inst", model := "source-model",
    tools := [SourceTool.other "retrieval", SourceTool.code_interpreter] }

/-- An assistant-migrator environment whose destination rejects every
creation attempt. -/
def failAgentEnv : AgentEnv :=
  { config := { model_deployment_name := "dest-model" }
    listResponse := Except.ok [sampleAssistant]
    destOutcome := fun _ _ => Except.error () }

/-- An assistant-migrator environment whose destination accepts every
creation attempt. -/
def okAgentEnv : AgentEnv :=
  { config := { model_deployment_name := "dest-model" }
    listResponse := Except.ok [sampleAssistant]
    destOutcome := fun _ _ => Except.ok () }

/-- An assistant-migrator environment whose source listing raises. -/
def errAgentEnv : AgentEnv :=
  { config := { model_deployment_name := "dest-model" }
    listResponse := Except.error ()
    destOutcome := fun _ _ => Except.ok () }

def sampleThread : SourceThread :=
  { id := "t1", metadata := [("custom_key", "v")], tool_resources := [] }

/-- A thread-migrator environment with one source thread holding one text
message. -/
def sampleThreadEnv : ThreadEnv :=
  { listResponse := Except.ok [sampleThread]
    messages := fun _ => [{ assistant_id := "asst", content := [MessageContent.text "hello"] }]
    summary := fun _ => "the summary"
    agents := ["ag1"]
    newThreadId := fun _ => "nt1" }

/-- A thread-migrator environment whose thread listing raises. -/
def errThreadEnv : ThreadEnv :=
  { listResponse := Except.error ()
    messages := fun _ => []
    summary := fun _ => ""
    agents := ["ag1"]
    newThreadId := fun _ => "nt1" }

/-- A thread-migrator environment whose only thread has an empty message
history. -/
def emptyMsgThreadEnv : ThreadEnv :=
  { listResponse := Except.ok [sampleThread]
    messages := fun _ => []
    summary := fun _ => "unused"
    agents := ["ag1"]
    newThreadId := fun _ => "nt1" }

end AgentMigrator

namespace AgentMigrator

/-! ## Theorems: retry loop -/

theorem attemptCount_failTrace (a k : Nat) : attemptCount (failTrace a k) = k + 1 := by
  induction k generalizing a with
  | zero => rfl
  | succ k ih => simp [failTrace, attemptCount, isAttempt, List.filter] at ih ⊢; exact ih (a + 1)

theorem sleepList_failTrace (a k : Nat) :
    sleepList (failTrace a k) = (List.range' a k).map (fun t => 2 ^ t) := by
  induction k generalizing a with
  | zero => rfl
  | succ k ih => simp [failTrace, sleepList, List.range'_succ, ih (a + 1)]

theorem retryGo_spec (create : Nat → Except Unit Bool) (max_retries : Nat) :
    ∀ (k a m inv : Nat), k < m → a + k ≤ max_retries →
    (∀ j, j < k → create (inv + j) = Except.error ()) →
    create (inv + k) = Except.ok true →
    retryGo create max_retries inv (List.range' a m) = (true, failTrace a k) := by
  intro k
  induction k with
  | zero =>
    intro a m inv hm _ _ hok
    obtain ⟨m, rfl⟩ : ∃ m0, m = m0 + 1 := ⟨m - 1, by omega⟩
    have hok' : create inv = Except.ok true := by simpa using hok
    rw [List.range'_succ]
    simp [retryGo, hok', failTrace]
  | succ k ih =>
    intro a m inv hm hbudget herr hok
    obtain ⟨m, rfl⟩ : ∃ m0, m = m0 + 1 := ⟨m - 1, by omega⟩
    have h0 : create inv = Except.error () := by
      have := herr 0 (Nat.succ_pos k); simpa using this
    have ha : a < max_retries := by omega
    have hrec : retryGo create max_retries (inv + 1) (List.range' (a + 1) m) =
        (true, failTrace (a + 1) k) := by
      refine ih (a + 1) m (inv + 1) (by omega) (by omega) ?_ ?_
      · intro j hj
        have := herr (j + 1) (by omega)
        simpa [Nat.add_assoc, Nat.add_comm 1 j] using this
      · have h1 : inv + 1 + k = inv + (k + 1) := by omega
        rw [h1]; exact hok
    rw [List.range'_succ]
    simp [retryGo, h0, ha, hrec, failTrace]

theorem retryGo_all_false (create : Nat → Except Unit Bool) (max_retries : Nat)
    (h : ∀ i, create i = Except.ok false) :
    ∀ (l : List Nat) (inv : Nat),
      retryGo create max_retries inv l = (false, List.replicate l.length RetryEvent.attemptCall) := by
  intro l
  induction l with
  | nil => intro inv; rfl
  | cons x rest ih =>
    intro inv
    simp [retryGo, h inv, ih (inv + 1), List.replicate]

/-- C1: for every creation function that raises on its first `k`
invocations and succeeds on the next one, with `k` below the retry budget
`n`, `create_agent_with_retries` returns success, the creation function is
invoked exactly `k + 1` times, and between consecutive attempts the loop
sleeps `2 ^ attempt` seconds for attempts `1, 2, …, k`, that is `2, 4, 8,
…` seconds, doubling each attempt with no jitter (the trace is exactly the
attempts interleaved with those sleeps). -/
theorem retries_succeed_after_k_raises (create : Nat → Except Unit Bool) (n k : Nat)
    (hk : k < n)
    (herr : ∀ j, j < k → create j = Except.error ())
    (hok : create k = Except.ok true) :
    create_agent_with_retries create n = (true, failTrace 1 k) ∧
    attemptCount (create_agent_with_retries create n).2 = k + 1 ∧
    sleepList (create_agent_with_retries create n).2 = (List.range' 1 k).map (fun t => 2 ^ t) := by
  have h : create_agent_with_retries create n = (true, failTrace 1 k) := by
    unfold create_agent_with_retries
    exact retryGo_spec create n k 1 n 0 hk (by omega)
      (fun j hj => by simpa using herr j hj) (by simpa using hok)
  refine ⟨h, ?_, ?_⟩
  · rw [h]; exact attemptCount_failTrace 1 k
  · rw [h]; exact sleepList_failTrace 1 k

theorem retries_succeed_after_k_raises_witness :
    ((2 : Nat) < 5 ∧
      (∀ j, j < 2 → (fun i => if i < 2 then (Except.error () : Except Unit Bool)
        else Except.ok true) j = Except.error ())) ∧
    create_agent_with_retries
        (fun i => if i < 2 then (Except.error () : Except Unit Bool) else Except.ok true) 5 =
      (true, [RetryEvent.attemptCall, RetryEvent.sleepSecs 2, RetryEvent.attemptCall,
        RetryEvent.sleepSecs 4, RetryEvent.attemptCall]) := by
  refine ⟨⟨by omega, ?_⟩, ?_⟩
  · intro j hj; simp [hj]
  · have h := retries_succeed_after_k_raises
      (fun i => if i < 2 then (Except.error () : Except Unit Bool) else Except.ok true) 5 2
      (by omega) (fun j hj => by simp [hj]) (by simp)
    exact h.1

/-- C2 as stated is false on the code: the assistant migrator calls
`create_agent_with_retries` with its default budget of 5 attempts, so an
always-failing creation leads to 5 invocations, not 3.  The trace of the
sample run (one assistant, a destination that rejects every attempt)
contains exactly 5 creation attempts. -/
theorem assistant_retry_budget_counterexample :
    ((migrate_assistants_run failAgentEnv).filter isCreateAttempt).length = 5 ∧
    ((migrate_assistants_run failAgentEnv).filter isCreateAttempt).length ≠ 3 := by
  refine ⟨by rfl, ?_⟩
  intro h
  rw [show ((migrate_assistants_run failAgentEnv).filter isCreateAttempt).length = 5 from rfl] at h
  omega

/-- C2 amended: in the assistant migrator, an always-failing creation is
reported failed after exactly 5 attempts (the default retry budget of
`create_agent_with_retries`, which the migrator does not override), and
the orchestration loop proceeds to the next assistant rather than aborting
the batch. -/
theorem assistant_always_fail_five_attempts (env : AgentEnv) (a : Assistant)
    (rest : List Assistant)
    (hfail : ∀ i, env.destOutcome a.name i = Except.error ()) :
    processAssistant env a =
      List.replicate 5
          (AgentEvent.createAttempt
            (agentCreateCall env.config (transform_assistant_to_agent env.config a))) ++
        [AgentEvent.report a.name false, AgentEvent.sleep 1] ∧
    (env.listResponse = Except.ok (a :: rest) →
      migrate_assistants_run env =
        AgentEvent.listCall :: AgentEvent.backupBatch (a :: rest).length ::
          (processAssistant env a ++ (rest.map (processAssistant env)).flatten)) := by
  have hcreate : ∀ i,
      (fun i => Except.ok (create_agent
        (agentCreateCall env.config (transform_assistant_to_agent env.config a))
        (env.destOutcome a.name i))) i = (Except.ok false : Except Unit Bool) := by
    intro i; simp [hfail i, create_agent]
  have hretry := retryGo_all_false _ default_max_retries hcreate (List.range' 1 default_max_retries) 0
  constructor
  · simp only [processAssistant, create_agent_with_retries, hretry]
    simp [retryEventToAgentEvent, transform_assistant_to_agent, List.map_replicate,
      default_max_retries]
  · intro hlist
    simp [migrate_assistants_run, list_all_assistants, hlist]

theorem assistant_always_fail_five_attempts_witness :
    (∀ i, failAgentEnv.destOutcome sampleAssistant.name i = Except.error ()) ∧
    processAssistant failAgentEnv sampleAssistant =
      List.replicate 5
          (AgentEvent.createAttempt
            (agentCreateCall failAgentEnv.config
              (transform_assistant_to_agent failAgentEnv.config sampleAssistant))) ++
        [AgentEvent.report sampleAssistant.name false, AgentEvent.sleep 1] := by
  refine ⟨fun i => rfl, ?_⟩
  exact (assistant_always_fail_five_attempts failAgentEnv sampleAssistant [] (fun i => rfl)).1

/-! ## Theorems: dict operations -/

theorem dictGet_dictSet_self (d : List (String × String)) (k v : String) :
    dictGet (dictSet d k v) k = some v := by
  induction d with
  | nil => simp [dictSet, dictGet]
  | cons p rest ih =>
    obtain ⟨k1, v1⟩ := p
    by_cases h : k1 = k
    · simp [dictSet, h, dictGet]
    · have h2 : ¬k = k1 := fun e => h e.symm
      simp [dictSet, h, dictGet, h2, ih]

theorem dictGet_dictSet_ne (d : List (String × String)) (k k1 v : String) (h : k1 ≠ k) :
    dictGet (dictSet d k v) k1 = dictGet d k1 := by
  induction d with
  | nil => simp [dictSet, dictGet, h]
  | cons p rest ih =>
    obtain ⟨k2, v2⟩ := p
    by_cases h2 : k2 = k
    · subst h2
      simp [dictSet, dictGet, h]
    · simp only [dictSet, if_neg h2]
      by_cases h3 : k1 = k2
      · simp [dictGet, h3]
      · simp [dictGet, h3, ih]

/-! ## Theorems: thread metadata (C3) -/

/-- C3 as stated is false on the code: for the sample migrated thread,
whose source metadata carries the additional key `custom_key`, the only
metadata attached to the destination thread is the `orig_thread_id`
binding; it contains neither `summary` (which is posted as message content
instead) nor the pass-through key. -/
theorem thread_metadata_counterexample :
    attachedMetadata (processThread sampleThreadEnv "ag1" sampleThread) =
      [[("orig_thread_id", "t1")]] ∧
    dictGet [("orig_thread_id", "t1")] "summary" = none ∧
    dictGet [("orig_thread_id", "t1")] "custom_key" = none := by
  exact ⟨rfl, rfl, rfl⟩

/-- C3 amended: for every migrated thread (one with a nonempty history),
the destination receives exactly three calls: an empty thread creation, a
metadata update binding exactly `orig_thread_id` to the source thread id,
and one user message whose content is the generated summary.  The summary
travels as message content rather than metadata, and additional source
metadata keys are not transmitted. -/
theorem thread_migration_dest_calls (env : ThreadEnv) (agent_id : String)
    (t : SourceThread) (h : env.messages t.id ≠ []) :
    processThread env agent_id t =
      [ThreadEvent.retrieveMsgs t.id, ThreadEvent.backupFile t.id,
       ThreadEvent.summarizeCall t.id,
       ThreadEvent.dest DestCall.createThread,
       ThreadEvent.dest
         (DestCall.updateThread (env.newThreadId t.id) [("orig_thread_id", t.id)]),
       ThreadEvent.dest
         (DestCall.createMessage (env.newThreadId t.id) "user" (env.summary t.id))] := by
  have hmd1 : dictGet (dictSet (dictSet t.metadata "orig_thread_id" t.id) "summary"
      (env.summary t.id)) "orig_thread_id" = some t.id := by
    rw [dictGet_dictSet_ne _ _ _ _ (by decide)]
    exact dictGet_dictSet_self _ _ _
  have hmd2 : dictGet (dictSet (dictSet t.metadata "orig_thread_id" t.id) "summary"
      (env.summary t.id)) "summary" = some (env.summary t.id) :=
    dictGet_dictSet_self _ _ _
  simp [processThread, h, create_thread, hmd1, hmd2]

theorem thread_migration_dest_calls_witness :
    sampleThreadEnv.messages sampleThread.id ≠ [] ∧
    processThread sampleThreadEnv "ag1" sampleThread =
      [ThreadEvent.retrieveMsgs "t1", ThreadEvent.backupFile "t1",
       ThreadEvent.summarizeCall "t1",
       ThreadEvent.dest DestCall.createThread,
       ThreadEvent.dest (DestCall.updateThread "nt1" [("orig_thread_id", "t1")]),
       ThreadEvent.dest (DestCall.createMessage "nt1" "user" "the summary")] := by
  refine ⟨by simp [sampleThreadEnv], ?_⟩
  exact thread_migration_dest_calls sampleThreadEnv "ag1" sampleThread
    (by simp [sampleThreadEnv])

/-! ## Theorems: enumeration failure (C4) -/

/-- C4 as stated is false on the code: a failing thread enumeration does
not return an empty list; `list_threads` has no handler and propagates the
raised error. -/
theorem thread_enumeration_counterexample :
    list_threads (Except.error ()) ≠ Except.ok [] ∧
    list_threads (Except.error ()) = Except.error () := by
  refine ⟨?_, rfl⟩
  intro h
  simp [list_threads] at h

/-- C4 amended: on an enumeration failure the assistant lister catches the
error and returns the empty list, so that run ends cleanly right after the
list call; the thread lister propagates the error, so the thread run stops
at the list call without completing (the process-level handler only logs
it). -/
theorem enumeration_failure_policy (aenv : AgentEnv) (tenv : ThreadEnv)
    (ha : aenv.listResponse = Except.error ()) (ht : tenv.listResponse = Except.error ()) :
    list_all_assistants aenv.listResponse = [] ∧
    migrate_assistants_run aenv = [AgentEvent.listCall] ∧
    list_threads tenv.listResponse = Except.error () ∧
    migrate_threads_run tenv = ([ThreadEvent.listThreadsCall], false) := by
  refine ⟨?_, ?_, ?_, ?_⟩ <;>
    simp [list_all_assistants, migrate_assistants_run, list_threads,
      migrate_threads_run, ha, ht]

theorem enumeration_failure_policy_witness :
    (errAgentEnv.listResponse = Except.error () ∧
      errThreadEnv.listResponse = Except.error ()) ∧
    migrate_assistants_run errAgentEnv = [AgentEvent.listCall] ∧
    migrate_threads_run errThreadEnv = ([ThreadEvent.listThreadsCall], false) := by
  refine ⟨⟨rfl, rfl⟩, ?_, ?_⟩
  · exact (enumeration_failure_policy errAgentEnv errThreadEnv rfl rfl).2.1
  · exact (enumeration_failure_policy errAgentEnv errThreadEnv rfl rfl).2.2.2

/-! ## Theorems: backup ordering (C5) -/

theorem second_mem_pre {α : Type} {a b c : α} {l pre post : List α}
    (h : a :: b :: l = pre ++ c :: post) (hca : c ≠ a) (hcb : c ≠ b) : b ∈ pre := by
  cases pre with
  | nil =>
    rw [List.nil_append] at h
    injection h with h1 _
    exact absurd h1.symm hca
  | cons x pre1 =>
    cases pre1 with
    | nil =>
      rw [List.cons_append, List.nil_append] at h
      injection h with _ h2
      injection h2 with h3 _
      exact absurd h3.symm hcb
    | cons y pre2 =>
      rw [List.cons_append, List.cons_append] at h
      injection h with h1 h2
      injection h2 with h3 _
      subst h1
      subst h3
      simp

/-- C5: backup-before-creation ordering and empty-batch behaviour.  With
an empty assistant batch the run emits only the list call (no backup, no
creation); in every assistant run the whole-batch backup precedes every
creation attempt; with an empty thread batch the run emits only the two
list calls (no backup, no creation); and every destination call made for a
source thread is preceded by the write of that thread backup file. -/
theorem backup_before_creation (aenv : AgentEnv) (tenv : ThreadEnv) :
    migrate_assistants_run { aenv with listResponse := Except.ok [] } =
      [AgentEvent.listCall] ∧
    (∀ pre call post,
      migrate_assistants_run aenv = pre ++ AgentEvent.createAttempt call :: post →
      AgentEvent.backupBatch (list_all_assistants aenv.listResponse).length ∈ pre) ∧
    (migrate_threads_run { tenv with listResponse := Except.ok [] }).1 =
      [ThreadEvent.listThreadsCall, ThreadEvent.listAgentsCall] ∧
    (∀ agent_id t pre c post,
      processThread tenv agent_id t = pre ++ ThreadEvent.dest c :: post →
      ThreadEvent.backupFile t.id ∈ pre) := by
  refine ⟨?_, ?_, ?_, ?_⟩
  · simp [migrate_assistants_run, list_all_assistants]
  · intro pre call post h
    cases hA : list_all_assistants aenv.listResponse with
    | nil =>
      have hrun : migrate_assistants_run aenv = [AgentEvent.listCall] := by
        simp [migrate_assistants_run, hA]
      rw [hrun] at h
      cases pre with
      | nil => simp at h
      | cons x pre1 => simp at h
    | cons a rest =>
      have hrun : migrate_assistants_run aenv =
          AgentEvent.listCall :: AgentEvent.backupBatch (a :: rest).length ::
            ((a :: rest).map (processAssistant aenv)).flatten := by
        simp [migrate_assistants_run, hA]
      rw [hrun] at h
      exact second_mem_pre h (by simp) (by simp)
  · cases hAg : tenv.agents with
    | nil => simp [migrate_threads_run, list_threads, hAg]
    | cons ag restAg => simp [migrate_threads_run, list_threads, hAg, threadsLoop]
  · intro agent_id t pre c post h
    cases hM : (tenv.messages t.id).isEmpty with
    | true =>
      have hrun : processThread tenv agent_id t = [ThreadEvent.retrieveMsgs t.id] := by
        simp [processThread, hM]
      rw [hrun] at h
      cases pre with
      | nil => simp at h
      | cons x pre1 => simp at h
    | false =>
      have hrun : processThread tenv agent_id t =
          ThreadEvent.retrieveMsgs t.id :: ThreadEvent.backupFile t.id ::
            ThreadEvent.summarizeCall t.id ::
            ((create_thread (tenv.newThreadId t.id) (tenv.messages t.id)
                (dictSet (dictSet t.metadata "orig_thread_id" t.id) "summary"
                  (tenv.summary t.id))
                t.tool_resources agent_id).1.map ThreadEvent.dest) := by
        simp [processThread, hM]
      rw [hrun] at h
      exact second_mem_pre h (by simp) (by simp)

theorem backup_before_creation_witness :
    (migrate_assistants_run okAgentEnv =
        [AgentEvent.listCall, AgentEvent.backupBatch 1] ++
          AgentEvent.createAttempt
              (agentCreateCall okAgentEnv.config
                (transform_assistant_to_agent okAgentEnv.config sampleAssistant)) ::
            [AgentEvent.report "a1" true, AgentEvent.sleep 1] ∧
      processThread sampleThreadEnv "ag1" sampleThread =
        [ThreadEvent.retrieveMsgs "t1", ThreadEvent.backupFile "t1",
            ThreadEvent.summarizeCall "t1"] ++
          ThreadEvent.dest DestCall.createThread ::
            [ThreadEvent.dest (DestCall.updateThread "nt1" [("orig_thread_id", "t1")]),
             ThreadEvent.dest (DestCall.createMessage "nt1" "user" "the summary")]) ∧
    AgentEvent.backupBatch (list_all_assistants okAgentEnv.listResponse).length ∈
      [AgentEvent.listCall, AgentEvent.backupBatch 1] ∧
    ThreadEvent.backupFile sampleThread.id ∈
      [ThreadEvent.retrieveMsgs "t1", ThreadEvent.backupFile "t1",
        ThreadEvent.summarizeCall "t1"] := by
  have h := backup_before_creation okAgentEnv sampleThreadEnv
  refine ⟨⟨rfl, rfl⟩, ?_, ?_⟩
  · exact h.2.1 [AgentEvent.listCall, AgentEvent.backupBatch 1] _
      [AgentEvent.report "a1" true, AgentEvent.sleep 1] rfl
  · exact h.2.2.2 "ag1" sampleThread
      [ThreadEvent.retrieveMsgs "t1", ThreadEvent.backupFile "t1",
        ThreadEvent.summarizeCall "t1"]
      DestCall.createThread
      [ThreadEvent.dest (DestCall.updateThread "nt1" [("orig_thread_id", "t1")]),
       ThreadEvent.dest (DestCall.createMessage "nt1" "user" "the summary")] rfl

/-! ## Theorems: tool filtering (C6) -/

/-- C6: a tool list holding one tool of an unsupported kind and one
code_interpreter tool is filtered to a toolset containing exactly the
code_interpreter entry, both by `buildToolset` and in the create call the
migrator issues; and the outcome of `create_agent` never depends on the
tool list, so a skipped unknown kind cannot fail the creation. -/
theorem unknown_tool_skipped (cfg : RunConfig) (name instructions kind : String)
    (tools1 tools2 : List SourceTool) (outcome : Except Unit Unit) :
    buildToolset [SourceTool.other kind, SourceTool.code_interpreter] =
      [AgentTool.codeInterpreterTool] ∧
    (agentCreateCall cfg
        { name := name, instructions := instructions,
          model := cfg.model_deployment_name,
          tools := [SourceTool.other kind, SourceTool.code_interpreter] }).toolset =
      [AgentTool.codeInterpreterTool] ∧
    create_agent (agentCreateCall cfg
        { name := name, instructions := instructions,
          model := cfg.model_deployment_name, tools := tools1 }) outcome =
      create_agent (agentCreateCall cfg
        { name := name, instructions := instructions,
          model := cfg.model_deployment_name, tools := tools2 }) outcome := by
  refine ⟨rfl, rfl, ?_⟩
  cases outcome <;> rfl

/-! ## Theorems: summarization prompt (C7) -/

theorem foldl_appendContent (l : List MessageContent) (acc : String) :
    l.foldl appendContent acc = acc ++ concatAll (l.map renderContent) := by
  induction l generalizing acc with
  | nil => simp [concatAll]
  | cons c rest ih =>
    cases c <;>
      simp [appendContent, renderContent, concatAll, ih, String.append_assoc]

theorem foldl_appendMessage (l : List ThreadMessage) (acc : String) :
    l.foldl appendMessage acc = acc ++ concatAll (l.map renderMessage) := by
  induction l generalizing acc with
  | nil => simp [concatAll]
  | cons m rest ih =>
    simp [appendMessage, renderMessage, concatAll, ih, foldl_appendContent,
      String.append_assoc]

/-- C7: the summarization prompt presents the retrieved messages in the
reverse of their newest-first retrieval order, hence chronologically; each
entry is the rendering of one message, tagged with the id of its
originating participant, with non-text content rendered as a content-kind
marker (for an image, its attached file id) rather than raw content; the
completion request uses temperature 0 and a fixed max-token ceiling of
1000. -/
theorem summary_prompt_chronological (messages : List ThreadMessage) :
    (generate_summary_request messages).user_message =
      "Summarize the following conversation threads:\n\n" ++
        concatAll (messages.reverse.map renderMessage) ∧
    (generate_summary_request messages).temperature = 0 ∧
    (generate_summary_request messages).max_tokens = 1000 := by
  refine ⟨?_, rfl, rfl⟩
  show summaryPrompt messages = _
  rw [summaryPrompt, foldl_appendMessage]

/-! ## Theorems: model identifier (C8) -/

/-- C8: the model identifier of the transformed payload and of the create
call is the configured deployment name; it never depends on the source
assistant, in particular not on its own model field. -/
theorem model_from_config (cfg : RunConfig) (a1 a2 : Assistant) :
    (transform_assistant_to_agent cfg a1).model = cfg.model_deployment_name ∧
    (agentCreateCall cfg (transform_assistant_to_agent cfg a1)).model =
      cfg.model_deployment_name ∧
    (transform_assistant_to_agent cfg a1).model =
      (transform_assistant_to_agent cfg a2).model :=
  ⟨rfl, rfl, rfl⟩

/-! ## Theorems: empty message history (C9) -/

/-- C9: a source thread whose retrieved message history is empty is
skipped: its trace is the message retrieval alone — no backup file write,
no summarization call, no destination call — and the loop continues with
the remaining threads. -/
theorem empty_thread_skipped (env : ThreadEnv) (agent_id : String) (t : SourceThread)
    (rest : List SourceThread) (h : env.messages t.id = []) :
    processThread env agent_id t = [ThreadEvent.retrieveMsgs t.id] ∧
    threadsLoop env agent_id (t :: rest) =
      ThreadEvent.retrieveMsgs t.id :: threadsLoop env agent_id rest := by
  have h1 : processThread env agent_id t = [ThreadEvent.retrieveMsgs t.id] := by
    simp [processThread, h]
  exact ⟨h1, by simp [threadsLoop, h1]⟩

theorem empty_thread_skipped_witness :
    emptyMsgThreadEnv.messages sampleThread.id = [] ∧
    processThread emptyMsgThreadEnv "ag1" sampleThread =
      [ThreadEvent.retrieveMsgs "t1"] := by
  exact ⟨rfl, (empty_thread_skipped emptyMsgThreadEnv "ag1" sampleThread [] rfl).1⟩

/-! ## Theorems: destination effect of create_thread (C10) -/

/-- C10: the destination-side effect of `create_thread` depends only on
the `orig_thread_id` and `summary` entries of its metadata argument: two
calls differing only in the messages list, the tool_resources map or the
thread_agent_id issue identical destination calls (none of the three is
ever transmitted); and more generally two calls whose metadata agree on
those two keys issue identical destination calls. -/
theorem create_thread_noninterference (new_id : String)
    (messages1 messages2 : List ThreadMessage)
    (metadata metadata1 metadata2 : List (String × String))
    (tr1 tr2 : List (String × String)) (agent1 agent2 : String) :
    create_thread new_id messages1 metadata tr1 agent1 =
      create_thread new_id messages2 metadata tr2 agent2 ∧
    (dictGet metadata1 "orig_thread_id" = dictGet metadata2 "orig_thread_id" →
     dictGet metadata1 "summary" = dictGet metadata2 "summary" →
     create_thread new_id messages1 metadata1 tr1 agent1 =
       create_thread new_id messages2 metadata2 tr2 agent2) := by
  constructor
  · rfl
  · intro ho hs
    unfold create_thread
    rw [ho, hs]

theorem create_thread_noninterference_witness :
    (dictGet [("orig_thread_id", "t1"), ("summary", "s")] "orig_thread_id" =
        dictGet [("summary", "s"), ("orig_thread_id", "t1"), ("k", "v")] "orig_thread_id" ∧
      dictGet [("orig_thread_id", "t1"), ("summary", "s")] "summary" =
        dictGet [("summary", "s"), ("orig_thread_id", "t1"), ("k", "v")] "summary") ∧
    create_thread "nt" [{ assistant_id := "a", content := [] }]
        [("orig_thread_id", "t1"), ("summary", "s")] [("cr", "x")] "agent1" =
      create_thread "nt" []
        [("summary", "s"), ("orig_thread_id", "t1"), ("k", "v")] [] "agent2" := by
  refine ⟨⟨rfl, rfl⟩, ?_⟩
  exact (create_thread_noninterference "nt" [{ assistant_id := "a", content := [] }] []
    [] [("orig_thread_id", "t1"), ("summary", "s")]
    [("summary", "s"), ("orig_thread_id", "t1"), ("k", "v")]
    [("cr", "x")] [] "agent1" "agent2").2 rfl rfl

end AgentMigrator
